import Mathlib

/-!
Shallow embedding of the Theridian ETL backend (Django + Celery) core logic:
the job lifecycle manager, the REST retry endpoint, the stuck-job reaper,
the metric retention sweep, the data-source name validator, the health
probe and the worker's per-source processing function.

Conventions of the embedding:
  - timestamps are integers (seconds); `timezone.now()` becomes an explicit
    `now : Int` parameter; `timedelta(hours=2)` is `2 * 3600` seconds and
    `timedelta(days=30)` is `30 * 86400` seconds;
  - JSON key/value maps (a job's `configuration`) are association lists
    `List (String × Int)`; `dict.get(key, default)` becomes `cfgGet`;
  - database tables are lists of records; a queryset `filter` is a list
    filter; `save()` is an explicit record update;
  - a Python function that can raise returns `Except String _`; a caught
    exception is an explicit outcome constructor.
-/

namespace Theridian

/-- Association-list rendering of a JSON configuration object, as consumed
by the worker's numeric `configuration.get(key, default)` reads. -/
abbrev Config := List (String × Int)

/-- Embeds Python's `configuration.get(key, default)` on a `Config`. -/
def cfgGet (cfg : Config) (key : String) (dflt : Int) : Int :=
  match cfg.find? (fun p => p.1 == key) with
  | some p => p.2
  | none => dflt

/-- DataSource model (src/apps/api/models.py): the fields the verified
logic reads. `connection_string` and `metadata` are opaque and omitted. -/
structure DataSource where
  id : Nat
  name : String
  source_type : String
  is_active : Bool
deriving Repr, DecidableEq

/-- ETLJob model (src/apps/api/models.py). `records_processed` is a
`PositiveIntegerField` (a natural number defaulting to 0);
`error_message` is free text defaulting to the empty string. -/
structure ETLJob where
  id : Nat
  name : String
  status : String
  data_source : DataSource
  started_at : Option Int
  completed_at : Option Int
  records_processed : Nat
  error_message : String
  configuration : Config
deriving Repr, DecidableEq

/-- MetricData model (src/apps/api/models.py). `metric_value` is numeric
(a float in Django; every value written by the verified paths is an
integer count, so it is embedded as `Int`). `timestamp` is set once at
creation (`auto_now_add`). -/
structure MetricData where
  metric_name : String
  metric_value : Int
  metric_type : String
  labels : List (String × String)
  timestamp : Int
deriving Repr, DecidableEq

/-! The worker's per-source processing function
    (src/apps/api/tasks.py, `_process_data_source` and helpers).
    `time.sleep` calls are pure delays with no effect on the result and
    are dropped by the embedding. -/

/-- Embeds `_process_database_source` (tasks.py:131-136). -/
def _process_database_source (cfg : Config) : Int :=
  cfgGet cfg "batch_size" 1000

/-- Embeds `_process_api_source` (tasks.py:139-145). -/
def _process_api_source (cfg : Config) : Int :=
  cfgGet cfg "page_size" 100 * cfgGet cfg "pages" 5

/-- Embeds `_process_file_source` (tasks.py:148-153). -/
def _process_file_source (cfg : Config) : Int :=
  cfgGet cfg "estimated_records" 5000

/-- Embeds `_process_stream_source` (tasks.py:156-162). -/
def _process_stream_source (cfg : Config) : Int :=
  cfgGet cfg "duration_seconds" 10 * cfgGet cfg "records_per_second" 100

/-- Embeds `_process_data_source` (tasks.py:111-128): dispatch on the data
source's `source_type`; an unsupported type raises `ValueError`. -/
def _process_data_source (source_type : String) (cfg : Config) : Except String Int :=
  if source_type == "database" then .ok (_process_database_source cfg)
  else if source_type == "api" then .ok (_process_api_source cfg)
  else if source_type == "file" then .ok (_process_file_source cfg)
  else if source_type == "stream" then .ok (_process_stream_source cfg)
  else .error ("Unsupported data source type: " ++ source_type)

/-! Derived job duration (models.py `ETLJob.duration`,
    serializers.py `ETLJobSerializer.get_duration`). A `timedelta` is its
    signed length in seconds. -/

/-- Embeds the model property `ETLJob.duration` (models.py:102-107):
the timedelta `completed_at - started_at` when both are set, else `None`. -/
def ETLJob.duration (j : ETLJob) : Option Int :=
  match j.started_at, j.completed_at with
  | some s, some c => some (c - s)
  | _, _ => none

/-- Embeds `ETLJobSerializer.get_duration` (serializers.py:132-137):
`duration.total_seconds() if duration else None`. Python truthiness of a
`timedelta` is falsity of being the zero timedelta, so a present duration
of value 0 also maps to `None`. -/
def get_duration (j : ETLJob) : Option Int :=
  match j.duration with
  | some d => if d == 0 then none else some d
  | none => none

/-- A sample data source used by concrete witnesses. -/
def dsSample : DataSource :=
  { id := 1, name := "alpha", source_type := "database", is_active := true }

/-- A concrete job whose two timestamps are both set and equal. -/
def jobBothSetZero : ETLJob :=
  { id := 2, name := "J1", status := "completed", data_source := dsSample,
    started_at := some 100, completed_at := some 100,
    records_processed := 0, error_message := "", configuration := [] }

/-! Celery task `process_etl_job` (tasks.py:17-108), split into its success
    path and its exception-handler path. The task is declared with
    `max_retries=3`; `self.request.retries` counts previous retries. -/

/-- Retry ceiling of `process_etl_job` (`@shared_task(bind=True, max_retries=3)`). -/
def max_retries : Nat := 3

/-- Outcome of the exception handler after the job record is saved: either a
retry is scheduled with a countdown (`raise self.retry(countdown=...)`), or
the exception propagates and Celery finalizes the task. -/
inductive RetryDecision where
  | retry (countdown : Nat)
  | finalFail
deriving Repr, DecidableEq

/-- Embeds the job update of the exception handler (tasks.py:84-89):
`status = "failed"`, `completed_at = now`, `error_message = str(exc)`. -/
def etlFailureUpdate (j : ETLJob) (now : Int) (msg : String) : ETLJob :=
  { j with status := "failed", completed_at := some now, error_message := msg }

/-- Embeds the retry logic (tasks.py:101-108): if `retries < max_retries`,
`raise self.retry(countdown=60 * (2**retries))`, else re-raise. -/
def etlFailureOutcome (retries : Nat) : RetryDecision :=
  if retries < max_retries then .retry (60 * 2 ^ retries) else .finalFail

/-- Embeds the whole exception-handler path of `process_etl_job`
(tasks.py:80-108) when the worker raised with message `msg` at retry count
`retries`: the saved job record paired with the retry decision. -/
def process_etl_job_onFailure (j : ETLJob) (now : Int) (msg : String)
    (retries : Nat) : ETLJob × RetryDecision :=
  (etlFailureUpdate j now msg, etlFailureOutcome retries)

/-- Embeds the success path of `process_etl_job` (tasks.py:28-48): the job
is saved as `running` with `started_at = t_start`, the worker returns
`records`, and the job is saved as `completed` with `completed_at = t_end`
and `records_processed = records`. No other field is assigned. -/
def process_etl_job_onSuccess (j : ETLJob) (t_start t_end : Int)
    (records : Nat) : ETLJob :=
  let jRunning := { j with status := "running", started_at := some t_start }
  { jRunning with
    status := "completed", completed_at := some t_end,
    records_processed := records }

/-! REST retry endpoint `ETLJobRetryView.post` (views.py:135-172). -/

/-- HTTP response of the retry endpoint: status code and serialized job. -/
structure RetryResponse where
  httpStatus : Nat
  body : Option ETLJob
deriving Repr, DecidableEq

/-- Embeds the reset block of the retry endpoint (views.py:154-159):
`status = "pending"`, `error_message = ""`, `started_at = None`,
`completed_at = None`, then `save()`. -/
def retryReset (j : ETLJob) : ETLJob :=
  { j with
    status := "pending", error_message := "",
    started_at := none, completed_at := none }

/-- Embeds `ETLJobRetryView.post` (views.py:145-172) on job table `db` and
path id `pk`. Returns the HTTP response, the table after the save, and the
list of job ids handed to `process_etl_job.delay`. An unknown id answers
404; a job whose status is not in `["failed", "cancelled"]` answers 400;
otherwise the job is reset, saved and redispatched. -/
def ETLJobRetryView_post (db : List ETLJob) (pk : Nat) :
    RetryResponse × List ETLJob × List Nat :=
  match db.find? (fun j => j.id == pk) with
  | none => ({ httpStatus := 404, body := none }, db, [])
  | some job =>
    if !(job.status == "failed" || job.status == "cancelled") then
      ({ httpStatus := 400, body := none }, db, [])
    else
      let j' := retryReset job
      ({ httpStatus := 200, body := some j' },
       db.map (fun k => if k.id == pk then j' else k), [job.id])

/-- A concrete job sitting in status `running` with a previous failure
message, used by counterexamples and witnesses. -/
def jobRunning : ETLJob :=
  { id := 3, name := "J2", status := "running", data_source := dsSample,
    started_at := some 10, completed_at := none,
    records_processed := 0, error_message := "previous failure",
    configuration := [] }

/-- A concrete job in status `failed` with leftover state from its run. -/
def jobFailed : ETLJob :=
  { id := 7, name := "J3", status := "failed", data_source := dsSample,
    started_at := some 20, completed_at := some 30,
    records_processed := 5, error_message := "boom",
    configuration := [("batch_size", 2)] }

/-! Stuck-job reaper: the sweep portion of the periodic `health_check`
    task (tasks.py:180-200). -/

/-- Error message written by the reaper (tasks.py:189). -/
def timeoutMsg : String := "Job timed out after 2 hours"

/-- Embeds the reaper's queryset condition (tasks.py:181-182):
`status="running"` and `started_at__lt = now - timedelta(hours=2)`. A job
with no `started_at` never matches an `__lt` lookup. -/
def isStuck (now : Int) (j : ETLJob) : Bool :=
  j.status == "running" &&
    (match j.started_at with
     | some s => decide (s < now - 2 * 3600)
     | none => false)

/-- Embeds the per-job update of the reaper loop (tasks.py:188-191). -/
def reapStuckJob (now : Int) (j : ETLJob) : ETLJob :=
  { j with
    status := "failed", error_message := timeoutMsg,
    completed_at := some now }

/-- Embeds the sweep portion of `health_check` (tasks.py:180-200): every
stuck job is force-failed, and one `etl_jobs_timeout` counter metric is
created per stuck job. Returns the job table after the sweep and the
metrics created by the loop. -/
def health_check_sweep (db : List ETLJob) (now : Int) :
    List ETLJob × List MetricData :=
  (db.map (fun j => if isStuck now j then reapStuckJob now j else j),
   (db.filter (fun j => isStuck now j)).map (fun j =>
     { metric_name := "etl_jobs_timeout", metric_value := 1,
       metric_type := "counter", labels := [("job_name", j.name)],
       timestamp := now }))

/-! Metric retention sweep `cleanup_old_logs` (tasks.py:203-222). -/

/-- Embeds `cleanup_old_logs` (tasks.py:203-222): rows with
`timestamp__lt = now - timedelta(days=30)` are deleted, and the number of
deleted rows is appended as a `metrics_cleanup` gauge (whose own
`timestamp` is set at creation, i.e. `now`). -/
def cleanup_old_logs (ms : List MetricData) (now : Int) : List MetricData :=
  let cutoff := now - 30 * 86400
  let deleted_count := (ms.filter (fun m => decide (m.timestamp < cutoff))).length
  let kept := ms.filter (fun m => !decide (m.timestamp < cutoff))
  kept ++ [{ metric_name := "metrics_cleanup",
             metric_value := (deleted_count : Int), metric_type := "gauge",
             labels := [("retention_days", "30")], timestamp := now }]

/-! Data-source name validator `DataSourceSerializer.validate_name`
    (serializers.py:82-92). -/

/-- Embeds `validate_name` (serializers.py:82-92) against table `db`, with
`inst` the instance under update (`self.instance`, `none` on create).
Returns `true` when the name is accepted: the queryset
`filter(name__iexact=value).exists()` is a case-insensitive existence
check, and the escape hatch compares the instance's own lowered name. -/
def validate_name (db : List DataSource) (inst : Option DataSource)
    (value : String) : Bool :=
  if db.any (fun r => r.name.toLower == value.toLower) then
    match inst with
    | some i => i.name.toLower == value.toLower
    | none => false
  else true

/-! Health probe `health_check` view (views.py:245-293). -/

/-- Outcome of a dependency round-trip inside the health view: it either
succeeds or raises (and the view catches the exception). -/
inductive CheckOutcome where
  | ok
  | raises
deriving Repr, DecidableEq

/-- Outcome of the Celery worker-queue check: `inspect().stats()` either
returns a value of some truthiness `b`, or raises. -/
inductive CeleryOutcome where
  | stats (b : Bool)
  | raises
deriving Repr, DecidableEq

/-- Body of the health response (the fields the view computes; the
constant `timestamp`, `version` and `uptime` fields are omitted). -/
structure HealthData where
  status : String
  database : Bool
  cache : Bool
  celery : Bool
deriving Repr, DecidableEq

/-- Embeds the `health_check` view (views.py:245-293): starts from a
healthy template with all flags false, then applies the database, cache
and Celery checks in order. A database or cache failure flips `status` to
`unhealthy`; a Celery failure is only logged. The view always returns a
response. -/
def health_check_view (dbC cacheC : CheckOutcome) (celC : CeleryOutcome) :
    HealthData :=
  let h0 : HealthData :=
    { status := "healthy", database := false, cache := false, celery := false }
  let h1 :=
    match dbC with
    | .ok => { h0 with database := true }
    | .raises => { h0 with status := "unhealthy" }
  let h2 :=
    match cacheC with
    | .ok => { h1 with cache := true }
    | .raises => { h1 with status := "unhealthy" }
  match celC with
  | .stats b => { h2 with celery := b }
  | .raises => h2

/-- Default job record used with positional lookups (`List.getD`). -/
def dummyJob : ETLJob :=
  { id := 0, name := "", status := "", records_processed := 0,
    data_source := { id := 0, name := "", source_type := "", is_active := false },
    started_at := none, completed_at := none, error_message := "",
    configuration := [] }

/-- A concrete metric row older than the retention window at `now = 3000000`. -/
def metricOld : MetricData :=
  { metric_name := "m1", metric_value := 2, metric_type := "gauge",
    labels := [], timestamp := 0 }

/-- A concrete metric row inside the retention window at `now = 3000000`. -/
def metricNew : MetricData :=
  { metric_name := "m2", metric_value := 3, metric_type := "counter",
    labels := [], timestamp := 5000000 }

/-- A looked-up configuration value is non-negative whenever every value in
the map is non-negative and the default is non-negative. -/
theorem cfgGet_nonneg (cfg : Config) (key : String) (dflt : Int)
    (hcfg : ∀ p ∈ cfg, 0 ≤ p.2) (hd : 0 ≤ dflt) : 0 ≤ cfgGet cfg key dflt := by
  unfold cfgGet
  cases h : cfg.find? (fun p => p.1 == key) with
  | none => exact hd
  | some p => exact hcfg p (List.mem_of_find?_eq_some h)

/-- C4 counterexample: the claim promises a non-negative record count for
every `(source_type, configuration)` pair with a valid source type, but a
configuration carrying a negative `batch_size` flows straight through
`configuration.get` and is returned as a negative count. -/
theorem processDataSource_negative_cex :
    _process_data_source "database" [("batch_size", -1)] = .ok (-1) ∧ (-1 : Int) < 0 :=
  ⟨rfl, by decide⟩

/-- C4 (amended): for every valid source type the processing function
returns an integer record count, non-negative whenever every value in the
configuration map is non-negative (in particular for the documented
defaults 1000, 100 × 5, 5000, 10 × 100); every other source type raises. -/
theorem processDataSource_spec (st : String) (cfg : Config)
    (hcfg : ∀ p ∈ cfg, 0 ≤ p.2) :
    ((st = "database" ∨ st = "api" ∨ st = "file" ∨ st = "stream") →
      ∃ n : Int, _process_data_source st cfg = .ok n ∧ 0 ≤ n)
    ∧ ((st ≠ "database" ∧ st ≠ "api" ∧ st ≠ "file" ∧ st ≠ "stream") →
      ∃ e, _process_data_source st cfg = .error e) := by
  constructor
  · rintro (rfl | rfl | rfl | rfl)
    · exact ⟨_, rfl, cfgGet_nonneg cfg _ _ hcfg (by decide)⟩
    · exact ⟨_, rfl, mul_nonneg (cfgGet_nonneg cfg _ _ hcfg (by decide))
        (cfgGet_nonneg cfg _ _ hcfg (by decide))⟩
    · exact ⟨_, rfl, cfgGet_nonneg cfg _ _ hcfg (by decide)⟩
    · exact ⟨_, rfl, mul_nonneg (cfgGet_nonneg cfg _ _ hcfg (by decide))
        (cfgGet_nonneg cfg _ _ hcfg (by decide))⟩
  · rintro ⟨h1, h2, h3, h4⟩
    refine ⟨"Unsupported data source type: " ++ st, ?_⟩
    simp only [_process_data_source, beq_iff_eq, h1, h2, h3, h4, if_false]

/-- C4 witness: the amended theorem applied to a concrete valid input. -/
theorem processDataSource_spec_witness :
    ∃ n : Int, _process_data_source "stream" [] = .ok n ∧ 0 ≤ n :=
  (processDataSource_spec "stream" [] (by simp)).1 (Or.inr (Or.inr (Or.inr rfl)))

/-- C6: at a job whose `started_at` and `completed_at` are both set and
equal, the serialized duration is `None` (the zero timedelta is falsy in
Python), contradicting "defined if and only if both timestamps are set". -/
theorem get_duration_zero_bug :
    jobBothSetZero.started_at.isSome = true
    ∧ jobBothSetZero.completed_at.isSome = true
    ∧ jobBothSetZero.duration = some 0
    ∧ get_duration jobBothSetZero = none :=
  ⟨rfl, rfl, rfl, rfl⟩

/-- C1 counterexample: at retry count 0 (below the ceiling 3) the handler
schedules a transparent retry with countdown 60, yet the job record it has
just saved already reads status `failed` — so the status is visible as
`failed` to callers during the retry window, contrary to the claim. -/
theorem process_etl_job_failed_visible_cex :
    (process_etl_job_onFailure jobRunning 50 "boom" 0).2 = .retry 60
    ∧ (process_etl_job_onFailure jobRunning 50 "boom" 0).1.status = "failed" :=
  ⟨rfl, rfl⟩

/-- C1 (amended): when the worker raises with retry count below 3 the
handler schedules another attempt with backoff 60 · 2^retries, and only at
retry count ≥ 3 does it finalize; but every failing attempt first saves the
job with status `failed`, `error_message` set to the stringified exception
and `completed_at` set, so the job can read `failed` during retries. -/
theorem process_etl_job_retry_spec (j : ETLJob) (now : Int) (msg : String)
    (retries : Nat) :
    (retries < max_retries →
      (process_etl_job_onFailure j now msg retries).2 = .retry (60 * 2 ^ retries))
    ∧ (max_retries ≤ retries →
      (process_etl_job_onFailure j now msg retries).2 = .finalFail)
    ∧ (process_etl_job_onFailure j now msg retries).1.status = "failed"
    ∧ (process_etl_job_onFailure j now msg retries).1.error_message = msg
    ∧ (process_etl_job_onFailure j now msg retries).1.completed_at = some now := by
  refine ⟨?_, ?_, rfl, rfl, rfl⟩
  · intro h
    simp [process_etl_job_onFailure, etlFailureOutcome, h]
  · intro h
    simp [process_etl_job_onFailure, etlFailureOutcome, Nat.not_lt.mpr h]

/-- C1 witness: the amended theorem applied at retry count 1. -/
theorem process_etl_job_retry_spec_witness :
    (process_etl_job_onFailure jobRunning 50 "boom" 1).2 = .retry (60 * 2 ^ 1) :=
  (process_etl_job_retry_spec jobRunning 50 "boom" 1).1 (by decide)

/-- C9: a successful execution sets status, timestamps and
records_processed but never assigns error_message, so a job whose earlier
attempt failed ends `completed` while still carrying the previous attempt's
non-empty error_message. -/
theorem success_keeps_error_message (j : ETLJob) (t1 t2 : Int) (n : Nat)
    (h : j.error_message ≠ "") :
    (process_etl_job_onSuccess j t1 t2 n).status = "completed"
    ∧ (process_etl_job_onSuccess j t1 t2 n).error_message = j.error_message
    ∧ (process_etl_job_onSuccess j t1 t2 n).error_message ≠ ""
    ∧ (process_etl_job_onSuccess j t1 t2 n).records_processed = n :=
  ⟨rfl, rfl, h, rfl⟩

/-- C9 witness: the theorem applied to a concrete job carrying a previous
failure message. -/
theorem success_keeps_error_message_witness :
    (process_etl_job_onSuccess jobRunning 60 70 42).status = "completed"
    ∧ (process_etl_job_onSuccess jobRunning 60 70 42).error_message
        = jobRunning.error_message
    ∧ (process_etl_job_onSuccess jobRunning 60 70 42).error_message ≠ ""
    ∧ (process_etl_job_onSuccess jobRunning 60 70 42).records_processed = 42 :=
  success_keeps_error_message jobRunning 60 70 42 (by decide)

/-- C2: the retry endpoint answers 404 on an unknown job id; answers 400
leaving the table and the dispatch list untouched when the job's status is
`completed`, `running` or `pending`; and on a `failed` or `cancelled` job
answers 200 with the job reset to `pending`, empty error_message and
cleared timestamps, redispatching exactly that job id. -/
theorem retry_endpoint_spec (db : List ETLJob) (pk : Nat) :
    ((∀ j ∈ db, j.id ≠ pk) → (ETLJobRetryView_post db pk).1.httpStatus = 404)
    ∧ (∀ j, db.find? (fun k => k.id == pk) = some j →
        ((j.status = "completed" ∨ j.status = "running" ∨ j.status = "pending") →
          (ETLJobRetryView_post db pk).1.httpStatus = 400
          ∧ (ETLJobRetryView_post db pk).2.1 = db
          ∧ (ETLJobRetryView_post db pk).2.2 = [])
        ∧ ((j.status = "failed" ∨ j.status = "cancelled") →
          (ETLJobRetryView_post db pk).1.httpStatus = 200
          ∧ (∃ j', (ETLJobRetryView_post db pk).1.body = some j'
              ∧ j'.status = "pending" ∧ j'.error_message = ""
              ∧ j'.started_at = none ∧ j'.completed_at = none)
          ∧ (ETLJobRetryView_post db pk).2.2 = [j.id])) := by
  constructor
  · intro h
    have hf : db.find? (fun j => j.id == pk) = none := by
      rw [List.find?_eq_none]
      intro a ha
      simpa using h a ha
    simp [ETLJobRetryView_post, hf]
  · intro j hj
    constructor
    · intro hst
      have hb : (j.status == "failed" || j.status == "cancelled") = false := by
        rcases hst with h | h | h <;> rw [h] <;> rfl
      simp [ETLJobRetryView_post, hj, hb]
    · intro hst
      have hb : (j.status == "failed" || j.status == "cancelled") = true := by
        rcases hst with h | h <;> rw [h] <;> rfl
      refine ⟨?_, ⟨retryReset j, ?_, rfl, rfl, rfl, rfl⟩, ?_⟩ <;>
        simp [ETLJobRetryView_post, hj, hb]

/-- C2 witness: retrying a concrete failed job answers 200. -/
theorem retry_endpoint_spec_witness :
    (ETLJobRetryView_post [jobFailed] 7).1.httpStatus = 200 :=
  (((retry_endpoint_spec [jobFailed] 7).2 jobFailed (by rfl)).2 (Or.inl rfl)).1

/-- C10: when the retry endpoint accepts a job, the saved record changes
only status, error_message and the two timestamps; id, name, data source,
records_processed and configuration are preserved, so a re-pending job can
still report a non-zero records_processed from its previous run. -/
theorem retry_endpoint_frame (db : List ETLJob) (pk : Nat) (j : ETLJob)
    (hj : db.find? (fun k => k.id == pk) = some j)
    (hst : j.status = "failed" ∨ j.status = "cancelled") :
    ∃ j', (ETLJobRetryView_post db pk).1.body = some j'
      ∧ j'.id = j.id ∧ j'.name = j.name ∧ j'.data_source = j.data_source
      ∧ j'.records_processed = j.records_processed
      ∧ j'.configuration = j.configuration
      ∧ (j.records_processed ≠ 0 → j'.records_processed ≠ 0) := by
  have hb : (j.status == "failed" || j.status == "cancelled") = true := by
    rcases hst with h | h <;> rw [h] <;> rfl
  refine ⟨retryReset j, ?_, rfl, rfl, rfl, rfl, rfl, fun h => h⟩
  simp [ETLJobRetryView_post, hj, hb]

/-- C10 witness: the frame theorem applied to a concrete failed job with
records_processed = 5. -/
theorem retry_endpoint_frame_witness :
    ∃ j', (ETLJobRetryView_post [jobFailed] 7).1.body = some j'
      ∧ j'.id = jobFailed.id ∧ j'.name = jobFailed.name
      ∧ j'.data_source = jobFailed.data_source
      ∧ j'.records_processed = jobFailed.records_processed
      ∧ j'.configuration = jobFailed.configuration
      ∧ (jobFailed.records_processed ≠ 0 → j'.records_processed ≠ 0) :=
  retry_endpoint_frame [jobFailed] 7 jobFailed (by rfl) (Or.inl rfl)

/-- Positional lookup commutes with `List.map` at indices inside the list. -/
theorem getD_map_of_lt {α β : Type} (f : α → β) (l : List α) (i : Nat)
    (d : β) (d' : α) (hi : i < l.length) :
    (l.map f).getD i d = f (l.getD i d') := by
  induction l generalizing i with
  | nil => simp at hi
  | cons a t ih =>
    cases i with
    | zero => rfl
    | succ k => exact ih k (by simpa using hi)

/-- C3: one reaper run leaves the table the same length; force-fails, with
the exact timeout message, every job in status `running` whose
`started_at` is strictly older than 2 hours (7200 s) before `now`; leaves
every other job unchanged; and emits exactly one `etl_jobs_timeout`
counter per affected job. -/
theorem reaper_spec (db : List ETLJob) (now : Int) :
    ((health_check_sweep db now).1.length = db.length)
    ∧ (∀ i, i < db.length →
        ((db.getD i dummyJob).status = "running" →
          ∀ s, (db.getD i dummyJob).started_at = some s → s < now - 7200 →
            ((health_check_sweep db now).1.getD i dummyJob).status = "failed"
            ∧ ((health_check_sweep db now).1.getD i dummyJob).error_message
                = "Job timed out after 2 hours"
            ∧ ((health_check_sweep db now).1.getD i dummyJob).completed_at
                = some now)
        ∧ (((db.getD i dummyJob).status ≠ "running"
            ∨ ∀ s, (db.getD i dummyJob).started_at = some s → now - 7200 ≤ s) →
          (health_check_sweep db now).1.getD i dummyJob = db.getD i dummyJob))
    ∧ ((health_check_sweep db now).2.length
        = db.countP (fun j => j.status == "running"
            && (j.started_at.elim false (fun s => decide (s < now - 7200)))))
    ∧ (∀ m ∈ (health_check_sweep db now).2,
        m.metric_name = "etl_jobs_timeout" ∧ m.metric_type = "counter"
          ∧ m.metric_value = 1) := by
  have h72 : (2 : Int) * 3600 = 7200 := by norm_num
  refine ⟨by simp [health_check_sweep], ?_, ?_, ?_⟩
  · intro i hi
    have hmap : (health_check_sweep db now).1.getD i dummyJob
        = (fun j => if isStuck now j then reapStuckJob now j else j)
            (db.getD i dummyJob) :=
      getD_map_of_lt _ db i dummyJob dummyJob hi
    constructor
    · intro hrun s hs hlt
      have hst : isStuck now (db.getD i dummyJob) = true := by
        simp only [isStuck, hrun, hs, h72]
        simpa using hlt
      rw [hmap]
      simp only [hst, if_true]
      exact ⟨rfl, rfl, rfl⟩
    · intro h
      have hst : isStuck now (db.getD i dummyJob) = false := by
        rcases h with h1 | h2
        · have hb : ((db.getD i dummyJob).status == "running") = false :=
            beq_eq_false_iff_ne.mpr h1
          simp only [isStuck, hb, Bool.false_and]
        · cases hsa : (db.getD i dummyJob).started_at with
          | none => simp only [isStuck, hsa, Bool.and_false]
          | some s =>
            have hle := h2 s hsa
            simp only [isStuck, hsa, h72,
              decide_eq_false (Int.not_lt.mpr hle), Bool.and_false]
      rw [hmap]
      simp only [hst]
      simp
  · simp only [health_check_sweep, List.length_map]
    rw [← List.countP_eq_length_filter]
    apply List.countP_congr
    intro j _
    cases hsa : j.started_at <;>
      simp [isStuck, hsa, h72]
  · intro m hm
    simp only [health_check_sweep, List.mem_map] at hm
    obtain ⟨j, _, rfl⟩ := hm
    exact ⟨rfl, rfl, rfl⟩

/-- C3 witness: a concrete run over one stale running job. -/
theorem reaper_spec_witness :
    ((health_check_sweep [jobRunning] 10000).1.getD 0 dummyJob).status = "failed"
    ∧ ((health_check_sweep [jobRunning] 10000).1.getD 0 dummyJob).error_message
        = "Job timed out after 2 hours" := by
  have h := ((reaper_spec [jobRunning] 10000).2.1 0 (by decide)).1 rfl 10 rfl
    (by decide)
  exact ⟨h.1, h.2.1⟩

/-- C5: the retention sweep keeps, in order, exactly the rows whose
timestamp is at least `now` minus 30 days (86400 s per day), and appends a
single `metrics_cleanup` gauge whose value is the number of rows whose
timestamp was strictly older than the cutoff. -/
theorem cleanup_spec (ms : List MetricData) (now : Int) :
    (cleanup_old_logs ms now).dropLast
      = ms.filter (fun m => decide (now - 30 * 86400 ≤ m.timestamp))
    ∧ (cleanup_old_logs ms now).getLast?
      = some { metric_name := "metrics_cleanup",
               metric_value :=
                 (((ms.filter (fun m =>
                     decide (m.timestamp < now - 30 * 86400))).length : Nat) : Int),
               metric_type := "gauge",
               labels := [("retention_days", "30")], timestamp := now } := by
  constructor
  · simp only [cleanup_old_logs, List.dropLast_concat]
    apply List.filter_congr
    intro m _
    rw [← decide_not, decide_eq_decide]
    exact not_lt
  · simp only [cleanup_old_logs, List.getLast?_concat]

/-- C5 witness: the sweep applied to one stale and one fresh row. -/
theorem cleanup_spec_witness :
    (cleanup_old_logs [metricOld, metricNew] 3000000).dropLast
      = [metricNew]
    ∧ (cleanup_old_logs [metricOld, metricNew] 3000000).getLast?
      = some { metric_name := "metrics_cleanup", metric_value := 1,
               metric_type := "gauge",
               labels := [("retention_days", "30")], timestamp := 3000000 } := by
  have h := cleanup_spec [metricOld, metricNew] 3000000
  refine ⟨?_, ?_⟩
  · rw [h.1]; decide
  · rw [h.2]; decide

/-- C7: under the invariant that stored names are pairwise distinct
case-insensitively (which every write through this validator maintains)
and that the instance under update is a stored record, a name is accepted
exactly when every stored record it matches case-insensitively is the
record being updated — i.e. a case-insensitive duplicate of another
record's name is rejected, and only an update keeping a record its own
name (in any casing) escapes the check. -/
theorem validate_name_spec (db : List DataSource) (inst : Option DataSource)
    (value : String)
    (huniq : ∀ r1 ∈ db, ∀ r2 ∈ db, r1.name.toLower = r2.name.toLower → r1 = r2)
    (hinst : ∀ i, inst = some i → i ∈ db) :
    validate_name db inst value = true
      ↔ ∀ r ∈ db, r.name.toLower = value.toLower → inst = some r := by
  unfold validate_name
  by_cases hex : (db.any fun r => r.name.toLower == value.toLower) = true
  case neg =>
    rw [if_neg hex]
    rw [Bool.not_eq_true, List.any_eq_false] at hex
    constructor
    · intro _ r hr hrm
      exfalso
      exact hex r hr (by simpa using hrm)
    · intro _
      rfl
  case pos =>
    rw [if_pos hex]
    rcases List.any_eq_true.mp hex with ⟨r0, hr0, hm0⟩
    have hm0' : r0.name.toLower = value.toLower := by simpa using hm0
    cases inst with
    | none =>
      constructor
      · intro hfalse
        exact absurd hfalse (by simp)
      · intro hall
        exact absurd (hall r0 hr0 hm0') (by simp)
    | some i =>
      constructor
      · intro hacc
        have hi : i.name.toLower = value.toLower := by simpa using hacc
        intro r hr hrm
        have hri : r = i := huniq r hr i (hinst i rfl) (by rw [hrm, hi])
        rw [hri]
      · intro hall
        have hir : some i = some r0 := hall r0 hr0 hm0'
        have hi : i = r0 := by
          injection hir
        simp [hi, hm0']

/-- C7 witness: updating a stored record to a different casing of its own
name is accepted. -/
theorem validate_name_spec_witness :
    validate_name [dsSample] (some dsSample) "ALPHA" = true := by
  apply (validate_name_spec [dsSample] (some dsSample) "ALPHA" ?_ ?_).mpr
  · intro r hr _
    rw [List.mem_singleton] at hr
    rw [hr]
  · intro r1 h1 r2 h2 _
    rw [List.mem_singleton] at h1 h2
    rw [h1, h2]
  · intro i h
    injection h with h2
    rw [← h2]
    exact List.mem_singleton_self _

/-- C8: the health view is total over every combination of check outcomes;
its overall status is `unhealthy` exactly when the database or the cache
check raised (and is `healthy` otherwise); and the worker-queue outcome
influences only the `celery` flag, never the status or the other flags. -/
theorem health_check_view_spec (dbC cacheC : CheckOutcome)
    (celC : CeleryOutcome) :
    ((health_check_view dbC cacheC celC).status = "unhealthy"
      ↔ (dbC = .raises ∨ cacheC = .raises))
    ∧ ((health_check_view dbC cacheC celC).status = "unhealthy"
        ∨ (health_check_view dbC cacheC celC).status = "healthy")
    ∧ ((health_check_view dbC cacheC celC).database = true ↔ dbC = .ok)
    ∧ ((health_check_view dbC cacheC celC).cache = true ↔ cacheC = .ok)
    ∧ (∀ celC' : CeleryOutcome,
        (health_check_view dbC cacheC celC').status
            = (health_check_view dbC cacheC celC).status
        ∧ (health_check_view dbC cacheC celC').database
            = (health_check_view dbC cacheC celC).database
        ∧ (health_check_view dbC cacheC celC').cache
            = (health_check_view dbC cacheC celC).cache) := by
  cases dbC <;> cases cacheC <;> cases celC <;>
    refine ⟨by simp [health_check_view], by simp [health_check_view],
      by simp [health_check_view], by simp [health_check_view], ?_⟩ <;>
    (intro celC'; cases celC' <;> exact ⟨rfl, rfl, rfl⟩)

/-- C8 witness: a failing cache check with a healthy database and a raised
worker check yields an unhealthy response. -/
theorem health_check_view_spec_witness :
    (health_check_view .ok .raises .raises).status = "unhealthy" :=
  (health_check_view_spec .ok .raises .raises).1.mpr (Or.inr rfl)

end Theridian
